import Mathlib

/-!
Verification development for the AAU Update news scraper (`scraper.py`).

The program has two pure-logic layers that we embed shallowly:

* the extractor's post-DOM acceptance/deduplication logic (`scrape_news`,
  lines 34-100) together with its URL/image rewriting helpers, and the
  structural JSON fallback (`extract_from_next_data`, lines 103-160);
* the renderer (`generate_html`, lines 163-309) and the placeholder logic
  of `main` (lines 312-329).

Browser automation (Playwright), the network and the file system are
external boundaries: DOM candidates enter the embedding as already
extracted partial records (one per element handle, the per-field queries
being at the boundary), and `generate_html` returns the string that the
source writes to the output file.  Python dictionaries with optional
string fields become a structure of `Option String` fields.  String
primitives (slicing, `in`, `split`, `startswith`) are modelled on the
character list underlying the Lean string, so that every definition
evaluates by kernel reduction.
-/

/-- One article record (the `article` dict in `scraper.py`).  `none`
models an absent key.  `formatted_date` is the key added by the
renderer's date pass. -/
structure Article where
  title : Option String := none
  url : Option String := none
  image : Option String := none
  date : Option String := none
  formatted_date : Option String := none
deriving Repr, DecidableEq

/-- Python truthiness of `d.get(k)` for a string-valued field: the key is
present and the string is non-empty. -/
def truthyStr : Option String → Bool
  | none => false
  | some s => s != ""

/-- Split a character list at the first occurrence of `pat`: returns the
parts before and after that occurrence, or `none` when `pat` does not
occur.  This is the primitive under both Python `pat in s` and
`s.split(pat)[0]`. -/
def splitFirstChars (pat : List Char) : List Char → Option (List Char × List Char)
  | [] => if pat.isEmpty then some ([], []) else none
  | c :: rest =>
    if pat.isPrefixOf (c :: rest) then some ([], (c :: rest).drop pat.length)
    else
      match splitFirstChars pat rest with
      | some (pre, post) => some (c :: pre, post)
      | none => none

/-- Split a string at the first occurrence of `pat` (`none` when absent). -/
def splitFirst (s pat : String) : Option (String × String) :=
  (splitFirstChars pat.data s.data).map (fun p => (String.mk p.1, String.mk p.2))

/-- Python `pat in s` (substring containment). -/
def pyContains (s pat : String) : Bool := (splitFirstChars pat.data s.data).isSome

/-- Python `s.startswith(p)`. -/
def strStartsWith (s p : String) : Bool := p.data.isPrefixOf s.data

/-- Python `s[:n]` (first `n` characters). -/
def strTake (s : String) (n : Nat) : String := String.mk (s.data.take n)

/-- `scrape_news` lines 44-47: a site-relative href (starting with `/`) is
prefixed with the fixed site origin, any other href is kept as is. -/
def resolveHref (href : String) : String :=
  if strStartsWith href "/" then "https://www.en.update.aau.dk" ++ href else href

/-- `scrape_news` lines 66-68: when `"?width="` occurs in the image URL
the source keeps everything before its first occurrence
(`img_src.split("?width=")[0]`) and appends `"?width=800"`; otherwise the
URL is unchanged. -/
def rewriteWidth (img_src : String) : String :=
  match splitFirst img_src "?width=" with
  | some (pre, _) => pre ++ "?width=800"
  | none => img_src

/-- Modelled from the spec's words, for claim comparison only: the URL
"carries a `width` query parameter", i.e. a `width=` parameter introduced
either as the first query parameter (`?width=`) or as a later one
(`&width=`). -/
def carriesWidthQueryParam (s : String) : Bool :=
  pyContains s "?width=" || pyContains s "&width="

/-- `scrape_news` lines 76-80, one loop iteration: a candidate is
appended iff its `title` and `url` are truthy and no already accepted
record has an equal `url`. -/
def acceptStep (acc : List Article) (a : Article) : List Article :=
  if truthyStr a.title && truthyStr a.url then
    if acc.any (fun b => b.url == a.url) then acc else acc ++ [a]
  else acc

/-- The DOM-path accumulation of `scrape_news`: fold `acceptStep` over the
per-element candidate records, in page order, starting from the empty
list. -/
def acceptArticles (candidates : List Article) : List Article :=
  candidates.foldl acceptStep []

/-! ## The `__NEXT_DATA__` JSON fallback (`extract_from_next_data`) -/

mutual
/-- Parsed JSON values, as Python's `json.loads` yields them.  Numeric
leaves are modelled as integers (the fallback never computes with them;
they only ever pass through `str`). -/
inductive Json where
  | null
  | bool (b : Bool)
  | num (n : Int)
  | str (s : String)
  | arr (items : JsonList)
  | obj (fields : JsonFields)

/-- A JSON array's elements. -/
inductive JsonList where
  | nil
  | cons (hd : Json) (tl : JsonList)

/-- A JSON object's key/value pairs, in insertion order (keys unique, as
in a Python dict). -/
inductive JsonFields where
  | nil
  | cons (key : String) (val : Json) (tl : JsonFields)
end

/-- Python `obj.get(key)` / `obj[key]` on a dict: value of the first
matching key. -/
def jlookup : JsonFields → String → Option Json
  | .nil, _ => none
  | .cons k v t, key => if k == key then some v else jlookup t key

/-- Python `key in obj`. -/
def jhasKey (fields : JsonFields) (key : String) : Bool := (jlookup fields key).isSome

mutual
/-- Python `repr` of a parsed JSON value (`None`/`True`/`False`, strings
in single quotes — quote escaping inside strings is not modelled; no
claim evaluates it on such input). -/
def pyRepr : Json → String
  | .null => "None"
  | .bool true => "True"
  | .bool false => "False"
  | .num n => toString n
  | .str s => "\x27" ++ s ++ "\x27"
  | .arr items => "[" ++ pyReprItems items ++ "]"
  | .obj fields => "\x7b" ++ pyReprFields fields ++ "\x7d"

/-- Comma-separated `repr`s of an array's elements. -/
def pyReprItems : JsonList → String
  | .nil => ""
  | .cons h .nil => pyRepr h
  | .cons h t => pyRepr h ++ ", " ++ pyReprItems t

/-- Comma-separated `repr(key): repr(value)` pairs of an object. -/
def pyReprFields : JsonFields → String
  | .nil => ""
  | .cons k v .nil => "\x27" ++ k ++ "\x27: " ++ pyRepr v
  | .cons k v t => "\x27" ++ k ++ "\x27: " ++ pyRepr v ++ ", " ++ pyReprFields t
end

/-- Python `str` of a parsed JSON value: the string itself for strings,
`repr` otherwise. -/
def pyStr : Json → String
  | .str s => s
  | j => pyRepr j

/-- Python truthiness of a parsed JSON value. -/
def jsonTruthy : Json → Bool
  | .null => false
  | .bool b => b
  | .num n => n != 0
  | .str s => s != ""
  | .arr .nil => false
  | .arr _ => true
  | .obj .nil => false
  | .obj _ => true

/-- Python `a or b` where each operand is `obj.get(k)` (`none` = `None`):
the first operand when truthy, otherwise the second. -/
def pyOr2 (a b : Option Json) : Option Json :=
  match a with
  | some v => if jsonTruthy v then some v else b
  | none => b

/-- `extract_from_next_data` lines 119-121 pattern: value of the first
listed key that is present with a `str` value (a present key with a
non-string value does not stop the scan). -/
def firstStringVal (fields : JsonFields) : List String → Option String
  | [] => none
  | k :: ks =>
    match jlookup fields k with
    | some (.str s) => some s
    | _ => firstStringVal fields ks

/-- Value of the first listed key that is present, regardless of type
(the `break` sits inside `if key in obj`). -/
def firstPresentKey (fields : JsonFields) : List String → Option Json
  | [] => none
  | k :: ks =>
    match jlookup fields k with
    | some v => some v
    | none => firstPresentKey fields ks

/-- `extract_from_next_data` lines 125-130: the URL is first taken from
the `url`/`href`/`link` scan, but a present `slug` key unconditionally
overwrites it with the `https://www.en.update.aau.dk/news/{slug}`
template (so the scan's value only survives when `slug` is absent). -/
def extractUrl (fields : JsonFields) : Option String :=
  match jlookup fields "slug" with
  | some v => some ("https://www.en.update.aau.dk/news/" ++ pyStr v)
  | none => firstStringVal fields ["url", "href", "link"]

/-- `extract_from_next_data` lines 133-140: first present image-like key;
a string value is taken as is, a nested object yields
`img.get("url") or img.get("src") or img.get("href")`.  In the nested
case Python stores the raw chained value (possibly `None`); its only
consumer is the renderer's f-string, so we store its `str` image. -/
def extractImage (fields : JsonFields) : Option String :=
  match firstPresentKey fields ["image", "img", "thumbnail", "media", "photo"] with
  | none => none
  | some (.str s) => some s
  | some (.obj f2) =>
    some (match pyOr2 (jlookup f2 "url") (pyOr2 (jlookup f2 "src") (jlookup f2 "href")) with
          | some v => pyStr v
          | none => "None")
  | some _ => none

/-- `extract_from_next_data` lines 143-146: `str(obj[key])[:10]` for the
first present timestamp-like key. -/
def extractDate (fields : JsonFields) : Option String :=
  (firstPresentKey fields ["date", "publishedAt", "createdAt", "updateDate", "createDate"]).map
    (fun v => strTake (pyStr v) 10)

/-- `extract_from_next_data` lines 109-149: the record built from one
qualifying object, or `none` when the object does not qualify or its
extracted title is not truthy. -/
def extractArticleFromObj (fields : JsonFields) : Option Article :=
  if jhasKey fields "title" || jhasKey fields "headline" || jhasKey fields "name" then
    let has_url := jhasKey fields "url" || jhasKey fields "href" ||
      jhasKey fields "link" || jhasKey fields "slug"
    let has_image := jhasKey fields "image" || jhasKey fields "img" ||
      jhasKey fields "thumbnail" || jhasKey fields "media" || jhasKey fields "photo"
    if has_url || has_image then
      let article : Article :=
        { title := firstStringVal fields ["title", "headline", "name"],
          url := extractUrl fields,
          image := extractImage fields,
          date := extractDate fields }
      if truthyStr article.title then some article else none
    else none
  else none

mutual
/-- `find_articles` (lines 107-157): depth-first walk appending the
record of each qualifying object before recursing into its values, in
insertion order; list elements are visited in order. -/
def findArticles : Json → List Article
  | .obj fields => (extractArticleFromObj fields).toList ++ findArticlesFields fields
  | .arr items => findArticlesItems items
  | _ => []

/-- Walk of an object's values, in insertion order. -/
def findArticlesFields : JsonFields → List Article
  | .nil => []
  | .cons _ v t => findArticles v ++ findArticlesFields t

/-- Walk of an array's elements, in order. -/
def findArticlesItems : JsonList → List Article
  | .nil => []
  | .cons h t => findArticles h ++ findArticlesItems t
end

/-- `extract_from_next_data` (lines 103-160): run the walk on the parsed
blob.  No deduplication happens on this path. -/
def extract_from_next_data (data : Json) : List Article := findArticles data

/-- `scrape_news` line 100 on the fallback path: the fallback result is
returned to the caller truncated to `max_items` (default 10). -/
def scrapeFallbackResult (data : Json) (max_items : Nat) : List Article :=
  (extract_from_next_data data).take max_items

/-! ## The renderer (`generate_html`) and `main` -/

/-- Gregorian leap year, as `datetime` validates day ranges. -/
def leapYear (y : Nat) : Bool := y % 4 == 0 && (y % 100 != 0 || y % 400 == 0)

/-- Days in month `m` of year `y`. -/
def daysInMonth (y m : Nat) : Nat :=
  if m == 2 then (if leapYear y then 29 else 28)
  else if m == 4 || m == 6 || m == 9 || m == 11 then 30
  else 31

/-- Value of a decimal digit string. -/
def digitsToNat (l : List Char) : Nat := l.foldl (fun n c => n * 10 + (c.toNat - 48)) 0

/-- `datetime.strptime(s, "%Y-%m-%d")`: exactly four year digits, one or
two month and day digits separated by `-`, nothing left over, month in
1..12, day in 1..days-of-that-month, year at least 1 (`datetime.MINYEAR`).
Returns the (year, month, day) triple, `none` on `ValueError`. -/
def strptimeYmd (s : String) : Option (Nat × Nat × Nat) :=
  match splitFirst s "-" with
  | none => none
  | some (ys, rest) =>
    match splitFirst rest "-" with
    | none => none
    | some (ms, ds) =>
      if pyContains ds "-" then none
      else
        let yl := ys.data
        let ml := ms.data
        let dl := ds.data
        if yl.length = 4 ∧ yl.all Char.isDigit = true ∧
            1 ≤ ml.length ∧ ml.length ≤ 2 ∧ ml.all Char.isDigit = true ∧
            1 ≤ dl.length ∧ dl.length ≤ 2 ∧ dl.all Char.isDigit = true then
          let y := digitsToNat yl
          let m := digitsToNat ml
          let d := digitsToNat dl
          if 1 ≤ y ∧ 1 ≤ m ∧ m ≤ 12 ∧ 1 ≤ d ∧ d ≤ daysInMonth y m then
            some (y, m, d)
          else none
        else none

/-- Two-digit zero padding, as `%d` and `%m` in `strftime`. -/
def pad2 (n : Nat) : String := if n < 10 then "0" ++ toString n else toString n

/-- `dt.strftime("%d.%m.%Y")`.  The year is rendered without padding, as
glibc does (CPython's `%Y` padding below year 1000 is
platform-dependent; every claim uses four-digit years). -/
def strftimeDmY (y m d : Nat) : String := pad2 d ++ "." ++ pad2 m ++ "." ++ toString y

/-- `generate_html` lines 172-173: when `"T"` occurs in the date string,
keep only the part before its first occurrence. -/
def stripDateTimeSep (d : String) : String :=
  match splitFirst d "T" with
  | some (pre, _) => pre
  | none => d

/-- `generate_html` lines 167-179, the per-record date normalization: a
missing or falsy (empty) `date` yields `""`; otherwise the part before
the first `"T"` (when one occurs) is truncated to 10 characters and
parsed as `%Y-%m-%d`; on success the result is `%d.%m.%Y`, and the bare
`except` turns any parse failure into the raw `date` string. -/
def pyFormatDate : Option String → String
  | none => ""
  | some d =>
    if d = "" then ""
    else
      match strptimeYmd (strTake (stripDateTimeSep d) 10) with
      | some (y, m, dd) => strftimeDmY y m dd
      | none => d

/-- One iteration of the date pass: the record with its `formatted_date`
key set (added or overwritten) in place. -/
def addFormattedDate (a : Article) : Article :=
  { a with formatted_date := some (pyFormatDate a.date) }

/-- The date pass over the caller's list (lines 167-179): every record
is updated in place, so the list the cell loop then reads is exactly
this one. -/
def dateFormatPass (articles : List Article) : List Article :=
  articles.map addFormattedDate

/-- `generate_html` line 182: the fixed placeholder image URL. -/
def placeholderImg : String := "https://www.en.update.aau.dk/media/aau-logo.png"

/-- Document head (lines 184-285 of the source f-string), up to and
including the opening `<body>` tag. -/
def htmlHeadRest : String := "<html lang=\"en\">
<head>
    <meta charset=\"UTF-8\">
    <meta name=\"viewport\" content=\"width=2632, height=1222\">
    <meta http-equiv=\"refresh\" content=\"3600\">
    <title>AAU Update News</title>
    <style>
        * \x7b
            margin: 0;
            padding: 0;
            box-sizing: border-box;
        \x7d

        html, body \x7b
            width: 2632px;
            height: 1222px;
            overflow: hidden;
            font-family: -apple-system, BlinkMacSystemFont, \x27Segoe UI\x27, Roboto, Oxygen, Ubuntu, sans-serif;
            background: #e8e8e8;
        \x7d

        .grid \x7b
            display: grid;
            grid-template-columns: 1fr 1fr 1fr 1fr;
            grid-template-rows: 1fr 1fr;
            gap: 12px;
            padding: 12px;
            width: 2632px;
            height: 1222px;
        \x7d

        .article \x7b
            position: relative;
            overflow: hidden;
            border-radius: 6px;
            background: #333;
        \x7d

        /* First two articles are large (each spans 2 columns) */
        .article:nth-child(1),
        .article:nth-child(2) \x7b
            grid-column: span 2;
        \x7d

        .article img \x7b
            width: 100%;
            height: 100%;
            object-fit: cover;
        \x7d

        .article-overlay \x7b
            position: absolute;
            bottom: 0;
            left: 0;
            right: 0;
            padding: 60px 25px 25px;
            background: linear-gradient(transparent, rgba(0,0,0,0.85));
            color: white;
        \x7d

        /* Large articles (1st and 2nd) */
        .article:nth-child(1) .article-overlay,
        .article:nth-child(2) .article-overlay \x7b
            padding: 80px 35px 35px;
        \x7d

        .article-title \x7b
            font-size: 26px;
            font-weight: 600;
            line-height: 1.25;
            margin-bottom: 8px;
            text-shadow: 2px 2px 4px rgba(0,0,0,0.5);
        \x7d

        /* Large articles get bigger titles */
        .article:nth-child(1) .article-title,
        .article:nth-child(2) .article-title \x7b
            font-size: 38px;
            line-height: 1.2;
        \x7d

        .article-meta \x7b
            font-size: 16px;
            opacity: 0.85;
        \x7d

        .article:nth-child(1) .article-meta,
        .article:nth-child(2) .article-meta \x7b
            font-size: 20px;
        \x7d

        .article a \x7b
            position: absolute;
            inset: 0;
            z-index: 1;
        \x7d
    </style>
</head>
<body>
"

/-- Line 285: the grid container opening tag. -/
def gridOpen : String := "    <div class=\"grid\">\n"

/-- Everything `generate_html` emits before the cells. -/
def htmlHead : String := "<!DOCTYPE html>\n" ++ htmlHeadRest ++ gridOpen

/-- Lines 303-306: grid close, body close, document close. -/
def htmlFooter : String := "    </div>\n</body>\n</html>\n"

/-- Pieces of the per-cell f-string (lines 293-301), cut exactly at the
interpolation points `image`, `title`, `placeholder`, `title`, `date`,
`url`. -/
def cellA : String := "        <div class=\"article\">\n            <img src=\""

/-- Between `image` and the first `title`. -/
def cellB : String := "\" alt=\""

/-- Between the first `title` and the `onerror` placeholder. -/
def cellC : String := "\" loading=\"lazy\" onerror=\"this.src=\x27"

/-- Between the `onerror` placeholder and the second `title`. -/
def cellD : String := "\x27\">\n            <div class=\"article-overlay\">\n                <h2 class=\"article-title\">"

/-- Between the second `title` and `date`. -/
def cellE : String := "</h2>\n                <div class=\"article-meta\">update.aau.dk &bull; "

/-- Between `date` and `url`. -/
def cellF : String := "</div>\n            </div>\n            <a href=\""

/-- After `url`. -/
def cellG : String := "\" target=\"_blank\" rel=\"noopener\"></a>\n        </div>\n"

/-- One grid cell (lines 287-301 loop body): defaults are the
placeholder image, `"News Article"`, `"#"` and `""`. -/
def renderCell (a : Article) : String :=
  let image := a.image.getD placeholderImg
  let title := a.title.getD "News Article"
  let url := a.url.getD "#"
  let date := a.formatted_date.getD ""
  cellA ++ image ++ cellB ++ title ++ cellC ++ placeholderImg ++ cellD ++ title ++
    cellE ++ date ++ cellF ++ url ++ cellG

/-- The cells emitted by the loop `for i, article in
enumerate(articles[:6])`, after the in-place date pass. -/
def renderedCells (articles : List Article) : List String :=
  ((dateFormatPass articles).take 6).map renderCell

/-- `generate_html` (lines 163-309): the full document string that the
source writes to the output file. -/
def generate_html (articles : List Article) : String :=
  htmlHead ++ String.join (renderedCells articles) ++ htmlFooter

/-- The renderer as invoked at a wall-clock instant `clock`: the source
body of `generate_html` never consults the clock, so the parameter is
unused. -/
def generate_html_at (_clock : String) (articles : List Article) : String :=
  generate_html articles

/-- `main` lines 324-329: the synthetic record rendered when extraction
found nothing, with `today` standing for
`datetime.now().strftime("%Y-%m-%d")`. -/
def placeholderArticle (today : String) : Article :=
  { title := some "News temporarily unavailable",
    url := some "https://www.en.update.aau.dk/news",
    image := some "https://www.aau.dk/digitalAssets/1075/1075444_aau-logo-rgb.png",
    date := some today }

/-- `main` lines 312-329 (`if articles: ... else: ...`): render the
extracted list, or the single placeholder record when it is empty. -/
def mainRender (articles : List Article) (today : String) : String :=
  if articles.isEmpty then generate_html [placeholderArticle today]
  else generate_html articles

/-- Number of cells the renderer emits. -/
def numCells (articles : List Article) : Nat := (renderedCells articles).length

/-- Cells styled as heroes: the stylesheet's `nth-child(1)`/`nth-child(2)`
rules target the first two children of the grid. -/
def numHeroCells (articles : List Article) : Nat := min (numCells articles) 2

/-- The remaining cells render with the standard (single-width) style. -/
def numStandardCells (articles : List Article) : Nat :=
  numCells articles - numHeroCells articles

/-! ## Helper lemmas -/

theorem acceptStep_cases (acc : List Article) (a : Article) :
    acceptStep acc a = acc ∨
      (acceptStep acc a = acc ++ [a] ∧ ∀ b ∈ acc, b.url ≠ a.url) := by
  unfold acceptStep
  split
  · split
    · exact Or.inl rfl
    · rename_i hany
      refine Or.inr ⟨rfl, fun b hb => ?_⟩
      intro hurl
      exact hany (List.any_eq_true.mpr ⟨b, hb, beq_iff_eq.mpr hurl⟩)
  · exact Or.inl rfl

theorem foldl_acceptStep_pairwise (candidates : List Article) :
    ∀ acc, acc.Pairwise (fun a b => a.url ≠ b.url) →
      (candidates.foldl acceptStep acc).Pairwise (fun a b => a.url ≠ b.url) := by
  induction candidates with
  | nil => intro acc h; exact h
  | cons a tl ih =>
    intro acc h
    simp only [List.foldl_cons]
    apply ih
    rcases acceptStep_cases acc a with heq | ⟨heq, hfresh⟩
    · rw [heq]; exact h
    · rw [heq]
      rw [List.pairwise_append]
      refine ⟨h, List.pairwise_singleton _ _, fun x hx y hy => ?_⟩
      rw [List.mem_singleton] at hy
      subst hy
      exact hfresh x hx

theorem foldl_acceptStep_sublist (candidates : List Article) :
    ∀ acc, (candidates.foldl acceptStep acc).Sublist (acc ++ candidates) := by
  induction candidates with
  | nil => intro acc; simp
  | cons a tl ih =>
    intro acc
    simp only [List.foldl_cons]
    rcases acceptStep_cases acc a with heq | ⟨heq, -⟩
    · rw [heq]
      refine (ih acc).trans ?_
      refine List.Sublist.append_left ?_ acc
      exact List.sublist_cons_self a tl
    · rw [heq]
      have h2 := ih (acc ++ [a])
      simpa using h2

theorem foldl_acceptStep_grows (candidates : List Article) :
    ∀ acc (b : Article), b ∈ acc → b ∈ candidates.foldl acceptStep acc := by
  induction candidates with
  | nil => intro acc b hb; exact hb
  | cons a tl ih =>
    intro acc b hb
    simp only [List.foldl_cons]
    apply ih
    rcases acceptStep_cases acc a with heq | ⟨heq, -⟩
    · rw [heq]; exact hb
    · rw [heq]; exact List.mem_append_left _ hb

theorem foldl_acceptStep_covers (candidates : List Article) :
    ∀ acc (a : Article), a ∈ candidates → truthyStr a.title = true → truthyStr a.url = true →
      ∃ b ∈ candidates.foldl acceptStep acc, b.url = a.url := by
  induction candidates with
  | nil => intro acc a ha; exact absurd ha (List.not_mem_nil a)
  | cons c tl ih =>
    intro acc a ha htitle hurl
    simp only [List.foldl_cons]
    rcases List.mem_cons.mp ha with rfl | hmem
    · by_cases hany : acc.any (fun b => b.url == a.url) = true
      · rcases List.any_eq_true.mp hany with ⟨b, hb, hbeq⟩
        have hb2 : b ∈ acceptStep acc a := by
          rcases acceptStep_cases acc a with heq | ⟨heq, -⟩
          · rw [heq]; exact hb
          · rw [heq]; exact List.mem_append_left _ hb
        exact ⟨b, foldl_acceptStep_grows tl _ b hb2, beq_iff_eq.mp hbeq⟩
      · have hstep : acceptStep acc a = acc ++ [a] := by
          unfold acceptStep
          rw [htitle, hurl]
          simp [hany]
        have ha2 : a ∈ acceptStep acc a := by
          rw [hstep]; exact List.mem_append_right _ (List.mem_singleton_self a)
        exact ⟨a, foldl_acceptStep_grows tl _ a ha2, rfl⟩
    · exact ih _ a hmem htitle hurl

theorem renderedCells_length (articles : List Article) :
    (renderedCells articles).length = min 6 articles.length := by
  simp [renderedCells, dateFormatPass]

theorem renderedCells_get (articles : List Article) (i : Nat)
    (h1 : i < articles.length) (h2 : i < 6) :
    (renderedCells articles).get ⟨i, by rw [renderedCells_length]; omega⟩ =
      renderCell (addFormattedDate (articles.get ⟨i, h1⟩)) := by
  simp [renderedCells, dateFormatPass, List.get_eq_getElem, List.getElem_take, List.getElem_map]

theorem generate_html_single (a : Article) :
    generate_html [a] = htmlHead ++ renderCell (addFormattedDate a) ++ htmlFooter := by
  simp [generate_html, renderedCells, dateFormatPass, String.join]

theorem htmlFooter_split : htmlFooter = "    </div>\n</body>\n" ++ "</html>\n" := by decide

theorem cellA_split : cellA = "        <div class=\"article\">\n            " ++ "<img src=\"" := by
  decide

theorem cellB_split : cellB = "\"" ++ " alt=\"" := by decide

/-! ## Claim theorems -/

/-- Duplicate-url input for the JSON fallback: two qualifying objects
carrying the same title and url. -/
def dupUrlFields : JsonFields :=
  .cons "title" (.str "Same story")
    (.cons "url" (.str "https://www.en.update.aau.dk/news/a") .nil)

/-- A `__NEXT_DATA__` blob whose walk meets the duplicate object twice. -/
def dupUrlBlob : Json := .arr (.cons (.obj dupUrlFields) (.cons (.obj dupUrlFields) .nil))

/-- C1 (counterexample): the embedded-JSON fallback performs no
deduplication, so the list returned to the caller can contain two records
with equal `url` — here the blob `[o, o]` with
`o = {title: "Same story", url: ".../news/a"}` yields two records with
the same url, refuting the claim for fallback-produced results. -/
theorem next_data_duplicate_urls :
    (scrapeFallbackResult dupUrlBlob 10).map Article.url =
      [some "https://www.en.update.aau.dk/news/a",
       some "https://www.en.update.aau.dk/news/a"] ∧
    ¬ ((scrapeFallbackResult dupUrlBlob 10).map Article.url).Nodup := by
  exact ⟨by decide, by decide⟩

/-- C1 (amended): only the DOM selector cascade deduplicates.  Its
accept step guarantees that the accepted list has pairwise-distinct
`url`s, is an order-preserving subsequence of the candidate list, and
that every candidate with truthy title and url stays represented by a
record with its url (the first occurrence); the JSON fallback result is
returned without deduplication (see the counterexample). -/
theorem dom_accept_unique_urls (candidates : List Article) :
    (acceptArticles candidates).Pairwise (fun a b => a.url ≠ b.url) ∧
    (acceptArticles candidates).Sublist candidates ∧
    (∀ a ∈ candidates, truthyStr a.title = true → truthyStr a.url = true →
      ∃ b ∈ acceptArticles candidates, b.url = a.url) := by
  refine ⟨foldl_acceptStep_pairwise candidates [] List.Pairwise.nil, ?_, ?_⟩
  · simpa using foldl_acceptStep_sublist candidates []
  · intro a ha htitle hurl
    exact foldl_acceptStep_covers candidates [] a ha htitle hurl

/-- Sample candidate for the C1 witness. -/
def wArticle : Article :=
  { title := some "A", url := some "https://www.en.update.aau.dk/news/a" }

/-- C1 (witness): the amended theorem applied to a concrete candidate
list containing a duplicate. -/
theorem dom_accept_unique_urls_witness :
    (acceptArticles [wArticle, wArticle]).Pairwise (fun a b => a.url ≠ b.url) ∧
    ∃ b ∈ acceptArticles [wArticle, wArticle], b.url = wArticle.url :=
  ⟨(dom_accept_unique_urls [wArticle, wArticle]).1,
   (dom_accept_unique_urls [wArticle, wArticle]).2.2 wArticle (by simp) rfl rfl⟩

/-- Qualifying object carrying both a string `url` and a `slug`. -/
def slugAndUrlFields : JsonFields :=
  .cons "title" (.str "t")
    (.cons "url" (.str "https://example.org/x") (.cons "slug" (.str "abc") .nil))

/-- C2 (counterexample): on an object with `url = "https://example.org/x"`
and `slug = "abc"` the claim demands the present `url` value, but the
code's `slug` branch unconditionally overwrites it with the template. -/
theorem slug_overrides_url :
    firstStringVal slugAndUrlFields ["url", "href", "link"] = some "https://example.org/x" ∧
    (extractArticleFromObj slugAndUrlFields).map Article.url =
      some (some "https://www.en.update.aau.dk/news/abc") ∧
    (extractArticleFromObj slugAndUrlFields).map Article.url ≠
      some (some "https://example.org/x") := by
  exact ⟨by decide, by decide, by decide⟩

/-- C2 (amended): when a `slug` key is present the record's url is always
the template `https://www.en.update.aau.dk/news/{str(slug)}`, regardless
of any `url`/`href`/`link` key; only when `slug` is absent is the url the
value of the first present string-valued key among `url`/`href`/`link`. -/
theorem next_data_url_extraction (fields : JsonFields) :
    (∀ v, jlookup fields "slug" = some v →
      extractUrl fields = some ("https://www.en.update.aau.dk/news/" ++ pyStr v)) ∧
    (jlookup fields "slug" = none →
      extractUrl fields = firstStringVal fields ["url", "href", "link"]) := by
  constructor
  · intro v hv
    simp [extractUrl, hv]
  · intro hnone
    simp [extractUrl, hnone]

/-- C2 (witness): the amended theorem applied to a slug-only object and
to a url-only object. -/
theorem next_data_url_extraction_witness :
    extractUrl (.cons "slug" (.str "abc") .nil) =
      some ("https://www.en.update.aau.dk/news/" ++ pyStr (.str "abc")) ∧
    extractUrl (.cons "url" (.str "https://u") .nil) =
      firstStringVal (.cons "url" (.str "https://u") .nil) ["url", "href", "link"] :=
  ⟨(next_data_url_extraction (.cons "slug" (.str "abc") .nil)).1 (.str "abc") rfl,
   (next_data_url_extraction (.cons "url" (.str "https://u") .nil)).2 rfl⟩

/-- C3: renderer date normalization — a missing `date` yields `""`; the
two concrete examples of the spec; and in general, after dropping
everything from the first `"T"` on and truncating to 10 characters, a
failed `%Y-%m-%d` parse leaves the raw string while a successful parse
of (y, m, d) yields `%d.%m.%Y`. -/
theorem format_date_spec :
    pyFormatDate none = "" ∧
    pyFormatDate (some "2024-03-15T10:00:00Z") = "15.03.2024" ∧
    pyFormatDate (some "not-a-date") = "not-a-date" ∧
    (∀ d, strptimeYmd (strTake (stripDateTimeSep d) 10) = none →
      pyFormatDate (some d) = d) ∧
    (∀ d y m dd, strptimeYmd (strTake (stripDateTimeSep d) 10) = some (y, m, dd) →
      pyFormatDate (some d) = strftimeDmY y m dd) := by
  refine ⟨rfl, by decide, by decide, ?_, ?_⟩
  · intro d h
    by_cases hd : d = ""
    · subst hd; rfl
    · simp [pyFormatDate, hd, h]
  · intro d y m dd h
    by_cases hd : d = ""
    · subst hd
      have hev : strptimeYmd (strTake (stripDateTimeSep "") 10) = none := rfl
      rw [hev] at h
      simp at h
    · simp [pyFormatDate, hd, h]

/-- C3 (witness): the general clauses applied to the two spec examples. -/
theorem format_date_spec_witness :
    pyFormatDate (some "not-a-date") = "not-a-date" ∧
    pyFormatDate (some "2024-03-15T10:00:00Z") = strftimeDmY 2024 3 15 :=
  ⟨format_date_spec.2.2.2.1 "not-a-date" rfl,
   format_date_spec.2.2.2.2 "2024-03-15T10:00:00Z" 2024 3 15 rfl⟩

/-- C4: with an empty extraction result, `main` still renders exactly one
synthetic record — fixed title `"News temporarily unavailable"`, fixed
fallback image, the current date — and the resulting document is a
complete HTML document with exactly one cell showing that title. -/
theorem placeholder_pipeline (today : String) :
    mainRender [] today = generate_html [placeholderArticle today] ∧
    (placeholderArticle today).title = some "News temporarily unavailable" ∧
    (placeholderArticle today).image =
      some "https://www.aau.dk/digitalAssets/1075/1075444_aau-logo-rgb.png" ∧
    (placeholderArticle today).date = some today ∧
    (renderedCells [placeholderArticle today]).length = 1 ∧
    (∃ s t, generate_html [placeholderArticle today] =
      s ++ "News temporarily unavailable" ++ t) ∧
    (∃ r, generate_html [placeholderArticle today] = "<!DOCTYPE html>\n" ++ r) ∧
    (∃ p, generate_html [placeholderArticle today] = p ++ "</html>\n") := by
  refine ⟨rfl, rfl, rfl, rfl, rfl, ?_, ?_, ?_⟩
  · refine ⟨htmlHead ++ ("        <div class=\"article\">\n            " ++ ("<img src=\"" ++
      ("https://www.aau.dk/digitalAssets/1075/1075444_aau-logo-rgb.png" ++ ("\"" ++ " alt=\"")))),
      cellC ++ placeholderImg ++ cellD ++ "News temporarily unavailable" ++ cellE ++
        pyFormatDate (some today) ++ cellF ++ "https://www.en.update.aau.dk/news" ++ cellG ++
        htmlFooter, ?_⟩
    rw [generate_html_single]
    simp only [renderCell, addFormattedDate, placeholderArticle, Option.getD_some]
    rw [cellA_split, cellB_split]
    simp only [String.append_assoc]
  · refine ⟨htmlHeadRest ++ gridOpen ++
      String.join (renderedCells [placeholderArticle today]) ++ htmlFooter, ?_⟩
    simp only [generate_html, htmlHead, String.append_assoc]
  · refine ⟨htmlHead ++ String.join (renderedCells [placeholderArticle today]) ++
      "    </div>\n</body>\n", ?_⟩
    conv_lhs => rw [generate_html, htmlFooter_split]
    simp only [String.append_assoc]

/-- C5: at most 6 cells are emitted and no placeholder cells are
synthesized (the cell count is `min length 6`); with 2 records both cells
sit in the hero slots (`nth-child(1)`/`(2)`) and none in the standard
slots; with 6 or more records the split is 2 hero plus 4 standard; with
an empty list the document is the grid container with zero child
cells. -/
theorem renderer_cell_counts (articles : List Article) :
    numCells articles = min articles.length 6 ∧
    (articles.length = 2 → numHeroCells articles = 2 ∧ numStandardCells articles = 0) ∧
    (6 ≤ articles.length → numHeroCells articles = 2 ∧ numStandardCells articles = 4) ∧
    (articles = [] → numCells articles = 0 ∧
      generate_html articles = htmlHead ++ htmlFooter) := by
  have hlen : numCells articles = min articles.length 6 := by
    simp [numCells, renderedCells_length, Nat.min_comm]
  refine ⟨hlen, ?_, ?_, ?_⟩
  · intro h2
    simp [numHeroCells, numStandardCells, hlen, h2]
  · intro h6
    constructor
    · simp [numHeroCells, hlen]; omega
    · simp [numStandardCells, numHeroCells, hlen]; omega
  · rintro rfl
    refine ⟨rfl, ?_⟩
    simp [generate_html, renderedCells, dateFormatPass, String.join, String.append_empty]

/-- C5 (witness): the cell-count theorem applied to a 2-record list, a
6-record list and the empty list. -/
theorem renderer_cell_counts_witness :
    (numHeroCells [({} : Article), {}] = 2 ∧ numStandardCells [({} : Article), {}] = 0) ∧
    (numHeroCells [({} : Article), {}, {}, {}, {}, {}] = 2 ∧
      numStandardCells [({} : Article), {}, {}, {}, {}, {}] = 4) ∧
    numCells ([] : List Article) = 0 :=
  ⟨(renderer_cell_counts [({} : Article), {}]).2.1 rfl,
   (renderer_cell_counts [({} : Article), {}, {}, {}, {}, {}]).2.2.1 (by decide),
   ((renderer_cell_counts []).2.2.2 rfl).1⟩

/-- C6: any record among the first six whose `image` key is absent gets a
cell whose image source is the fixed placeholder URL. -/
theorem missing_image_uses_placeholder (articles : List Article) (i : Nat)
    (h1 : i < articles.length) (h2 : i < 6)
    (himg : (articles.get ⟨i, h1⟩).image = none) :
    ∃ s t,
      (renderedCells articles).get ⟨i, by rw [renderedCells_length]; omega⟩ =
        s ++ ("<img src=\"" ++ placeholderImg ++ "\"") ++ t := by
  rw [renderedCells_get articles i h1 h2]
  set x := articles.get ⟨i, h1⟩ with hx
  refine ⟨"        <div class=\"article\">\n            ",
    " alt=\"" ++ (x.title.getD "News Article") ++ cellC ++ placeholderImg ++ cellD ++
      (x.title.getD "News Article") ++ cellE ++ pyFormatDate x.date ++ cellF ++
      (x.url.getD "#") ++ cellG, ?_⟩
  simp only [renderCell, addFormattedDate, himg, Option.getD_none, Option.getD_some]
  rw [cellA_split, cellB_split]
  simp only [String.append_assoc]

/-- C6 (witness): the theorem applied to a singleton list whose record
has no image. -/
theorem missing_image_uses_placeholder_witness :
    ∃ s t,
      (renderedCells [({} : Article)]).get ⟨0, by rw [renderedCells_length]; decide⟩ =
        s ++ ("<img src=\"" ++ placeholderImg ++ "\"") ++ t :=
  missing_image_uses_placeholder [{}] 0 (by decide) (by decide) rfl

/-- C7 (counterexample): `".../img.jpg?a=1&width=120"` carries a `width`
query parameter, but the code only reacts to the substring `"?width="`,
so the URL is returned unchanged and no `width=800` appears — refuting
the claim that every width parameter is rewritten. -/
theorem width_param_not_first_unchanged :
    carriesWidthQueryParam "https://www.en.update.aau.dk/media/img.jpg?a=1&width=120" = true ∧
    rewriteWidth "https://www.en.update.aau.dk/media/img.jpg?a=1&width=120" =
      "https://www.en.update.aau.dk/media/img.jpg?a=1&width=120" ∧
    pyContains (rewriteWidth "https://www.en.update.aau.dk/media/img.jpg?a=1&width=120")
      "width=800" = false := by
  exact ⟨by decide, by decide, by decide⟩

/-- C7 (amended): only a width parameter introduced directly by
`"?width="` (i.e. as the first query parameter) is rewritten: everything
from the first `"?width="` on is replaced by `"?width=800"`; the spec's
example holds, and a URL without the `"?width="` substring is left
unchanged. -/
theorem width_rewrite_amended :
    rewriteWidth "https://www.en.update.aau.dk/media/img.jpg?width=120" =
      "https://www.en.update.aau.dk/media/img.jpg?width=800" ∧
    (∀ s, pyContains s "?width=" = false → rewriteWidth s = s) ∧
    (∀ s pre post, splitFirst s "?width=" = some (pre, post) →
      rewriteWidth s = pre ++ "?width=800") := by
  refine ⟨by decide, ?_, ?_⟩
  · intro s h
    rw [pyContains] at h
    rw [rewriteWidth, splitFirst]
    rcases hs : splitFirstChars "?width=".data s.data with - | p
    · simp
    · rw [hs] at h
      simp at h
  · intro s pre post h
    simp [rewriteWidth, h]

/-- C7 (witness): the amended theorem applied to a URL without the
substring and to one where `"?width="` splits it. -/
theorem width_rewrite_amended_witness :
    rewriteWidth "https://x/plain.jpg" = "https://x/plain.jpg" ∧
    rewriteWidth "https://x/a.jpg?width=120" = "https://x/a.jpg" ++ "?width=800" :=
  ⟨width_rewrite_amended.2.1 "https://x/plain.jpg" rfl,
   width_rewrite_amended.2.2 "https://x/a.jpg?width=120" "https://x/a.jpg" "120" rfl⟩

/-- C8: every href starting with `/` is resolved by prefixing the fixed
site origin; in particular `/news/123` resolves to
`https://www.en.update.aau.dk/news/123`. -/
theorem relative_href_resolution :
    (∀ href, strStartsWith href "/" = true →
      resolveHref href = "https://www.en.update.aau.dk" ++ href) ∧
    resolveHref "/news/123" = "https://www.en.update.aau.dk/news/123" := by
  constructor
  · intro href h
    simp [resolveHref, h]
  · decide

/-- C8 (witness): the general clause applied to the spec's example. -/
theorem relative_href_resolution_witness :
    resolveHref "/news/123" = "https://www.en.update.aau.dk" ++ "/news/123" :=
  relative_href_resolution.1 "/news/123" rfl

/-- C9: the renderer is deterministic in its input — invoked at two
different wall-clock instants on the same record list it produces the
same document byte for byte, because its body never reads the clock
(the only dates in the output derive from the records). -/
theorem renderer_clock_independent (clock1 clock2 : String) (articles : List Article) :
    generate_html_at clock1 articles = generate_html_at clock2 articles := rfl

/-- C10: the renderer's date pass updates the caller's records in place —
every record of the list gets its `formatted_date` key set (added or
overwritten) to the normalized date, all other fields are unchanged, and
the cell loop consumes exactly the updated list. -/
theorem date_pass_frame (articles : List Article) (a : Article) :
    dateFormatPass articles = articles.map addFormattedDate ∧
    renderedCells articles = ((dateFormatPass articles).take 6).map renderCell ∧
    (addFormattedDate a).formatted_date = some (pyFormatDate a.date) ∧
    (addFormattedDate a).title = a.title ∧
    (addFormattedDate a).url = a.url ∧
    (addFormattedDate a).image = a.image ∧
    (addFormattedDate a).date = a.date :=
  ⟨rfl, rfl, rfl, rfl, rfl, rfl, rfl⟩
